import Mathlib

/-
Verification development for the online-quiz-system frontend.
The definitions below are a shallow embedding of:
  - the NextAuth token lifecycle (refreshAccessToken and the jwt callback),
    from src/unnamed/part_003;
  - the route-guard middleware (the authorized callback and the middleware
    function composed by withAuth), from the middleware source that shares a
    file with src/src/types/quiz.ts;
  - the quiz-attempt submission payload builder (handleSubmit), from
    src/unnamed/part_001.
Timestamps (Date.now()) are modelled as Nat milliseconds.  Optional / possibly
undefined TS fields are modelled as Option.  JavaScript truthiness tests on
strings and numbers are modelled explicitly (empty string and 0 are falsy).
Each axios.post is counted, so "no network call" is the count being 0.
-/

/-- Backend user roles, the role enum of the BackendUser / User interfaces. -/
inductive Role
  | ADMIN
  | TEACHER
  | STUDENT
deriving DecidableEq

/-- Backend user profile: the BackendUser interface of src/unnamed/part_003
(identical in fields to the User interface of src/src/types/quiz.ts). -/
structure User where
  id : Nat
  username : String
  email : String
  role : Role
  is_marked : Bool
deriving DecidableEq

/-- The CustomJWT token record of src/unnamed/part_003: the credential record
of the session layer.  Undefined-able TS fields become Option. -/
structure CustomJWT where
  accessToken : Option String
  refreshToken : Option String
  accessTokenExpires : Option Nat
  user : Option User
  error : Option String
deriving DecidableEq

/-- JavaScript truthiness of an optional string: undefined and the empty
string are falsy. -/
def strTruthy : Option String → Bool
  | none => false
  | some v => v != ""

/-- Response shape of the backend refresh endpoint: response.data is
destructured as access and refresh, where refresh may be absent
(non-rotating backends omit it). -/
structure RefreshResponse where
  access : String
  refresh : Option String
deriving DecidableEq

/-- Outcome of the single axios.post to the refresh endpoint: either a
response, or a thrown error (network error or backend rejection). -/
inductive RefreshResult
  | ok (r : RefreshResponse)
  | failed
deriving DecidableEq

/-- The hardcoded access-token lifetime, 5 * 60 * 1000 ms, used by both the
initial sign-in branch and refreshAccessToken. -/
def tokenLifetimeMs : Nat := 5 * 60 * 1000

/-- Shallow embedding of refreshAccessToken (src/unnamed/part_003 lines
40-83).  The backend outcome of the single axios.post is passed as an
argument; the second component of the result counts the network calls made.
Notes kept faithful to the source: the missing-refresh-token branch spreads
the input token and only sets the error field; the failure branch sets
accessTokenExpires to 0 (not undefined); the success branch keeps the input
refresh token when the response omits one (the ?? operator). -/
def refreshAccessToken (now : Nat) (backend : RefreshResult) (token : CustomJWT) :
    CustomJWT × Nat :=
  if !strTruthy token.refreshToken then
    ({ token with error := some "MissingRefreshTokenError" }, 0)
  else
    match backend with
    | RefreshResult.ok resp =>
        ({ token with
            accessToken := some resp.access,
            refreshToken := match resp.refresh with
              | some r => some r
              | none => token.refreshToken,
            accessTokenExpires := some (now + tokenLifetimeMs),
            error := none }, 1)
    | RefreshResult.failed =>
        ({ token with
            error := some "RefreshAccessTokenError",
            accessToken := none,
            refreshToken := none,
            accessTokenExpires := some 0 }, 1)

/-- The account argument of the jwt callback; only its provider field is
inspected by the code (the google tokens are forwarded opaquely to the
backend, which is abstracted as SigninResult). -/
structure Account where
  provider : String
deriving DecidableEq

/-- Response shape of the backend google-callback (identity exchange)
endpoint: access_token, refresh_token and the backend user object. -/
structure SigninResponse where
  access_token : String
  refresh_token : String
  user : User
deriving DecidableEq

/-- Outcome of the single axios.post to the identity-exchange endpoint. -/
inductive SigninResult
  | ok (r : SigninResponse)
  | failed
deriving DecidableEq

/-- The subsequent-call part of the jwt callback (src/unnamed/part_003 lines
170-194): if accessTokenExpires is truthy and now is strictly before it, the
token is returned unchanged with no network call; otherwise, if a truthy
refresh token exists the callback delegates to refreshAccessToken, and
otherwise it sets MissingRefreshTokenError and deletes accessToken,
accessTokenExpires and user (refreshToken is left as is). -/
def jwtSubsequent (now : Nat) (refreshBackend : RefreshResult) (token : CustomJWT) :
    CustomJWT × Nat :=
  let refreshBranch :=
    if strTruthy token.refreshToken then
      refreshAccessToken now refreshBackend token
    else
      ({ token with
          error := some "MissingRefreshTokenError",
          accessToken := none,
          accessTokenExpires := none,
          user := none }, 0)
  match token.accessTokenExpires with
  | some e => if e ≠ 0 ∧ now < e then (token, 0) else refreshBranch
  | none => refreshBranch

/-- Shallow embedding of the jwt callback (src/unnamed/part_003 lines
112-195).  userPresent models the truthiness of the user argument; the
initial-sign-in branch runs only when both account and user are present and
the provider is google (otherwise control falls through to the
subsequent-call logic).  The second component counts network calls. -/
def jwtCallback (now : Nat) (signinBackend : SigninResult)
    (refreshBackend : RefreshResult) (token : CustomJWT)
    (account : Option Account) (userPresent : Bool) : CustomJWT × Nat :=
  match account, userPresent with
  | some a, true =>
    if a.provider = "google" then
      match signinBackend with
      | SigninResult.ok resp =>
          ({ token with
              accessToken := some resp.access_token,
              refreshToken := some resp.refresh_token,
              accessTokenExpires := some (now + tokenLifetimeMs),
              user := some resp.user,
              error := none }, 1)
      | SigninResult.failed =>
          ({ token with
              error := some "BackendLoginFailed",
              accessToken := none,
              refreshToken := none,
              accessTokenExpires := none,
              user := none }, 1)
    else jwtSubsequent now refreshBackend token
  | _, _ => jwtSubsequent now refreshBackend token

/-- Decision of the route guard for one request: proceed, redirect to the
login page (withAuth, when the authorized callback returns false), or
redirect to the unauthorized page (the middleware function). -/
inductive Decision
  | Allow
  | RedirectToLogin
  | RedirectToUnauthorized
deriving DecidableEq

/-- The user object inside the middleware CustomJWT: only an optional role
is inspected. -/
structure MwUser where
  role : Option Role
deriving DecidableEq

/-- The middleware token (the CustomJWT interface of the middleware source):
an optional user carrying an optional role. -/
structure MwToken where
  user : Option MwUser
deriving DecidableEq

/-- The string of characters of a string literal; request paths and path
patterns are modelled as lists of characters. -/
def chars (s : String) : List Char := s.toList

/-- Boolean test that the path p starts with the pattern pat: the semantics
of String.prototype.startsWith and of a start-anchored literal regex. -/
def hasPre : List Char → List Char → Bool
  | [], _ => true
  | _ :: _, [] => false
  | a :: pat, c :: p => a == c && hasPre pat p

/-- Strips the pattern pat from the front of p, returning the remainder, or
none when p does not start with pat. -/
def dropPre : List Char → List Char → Option (List Char)
  | [], p => some p
  | _ :: _, [] => none
  | a :: pat, c :: p => if a == c then dropPre pat p else none

/-- Matching of the tail of the quiz-edit regexes after the literal
/quizzes/ part: one or more digits followed by /edit, exactly (anchored,
the middleware regex with a trailing dollar) or as a prefix (the authorized
callback regex without one).  Because a slash is not a digit, taking the
maximal digit run is equivalent to the backtracking regex semantics. -/
def quizEditTail (anchored : Bool) (rest : List Char) : Bool :=
  let ds := rest.takeWhile Char.isDigit
  let after := rest.dropWhile Char.isDigit
  ds != [] &&
    (if anchored then after == chars "/edit" else hasPre (chars "/edit") after)

/-- Matching of a whole path against the quiz-edit regexes: the path must
start with /quizzes/ and its remainder must match quizEditTail. -/
def matchQuizEdit (anchored : Bool) (p : List Char) : Bool :=
  match dropPre (chars "/quizzes/") p with
  | none => false
  | some rest => quizEditTail anchored rest

/-- The role-restricted pattern test of the middleware function:
pathname.startsWith of /quizzes/new, or the fully anchored regex matching
/quizzes/ digits /edit. -/
def mwRoleRestricted (p : List Char) : Bool :=
  hasPre (chars "/quizzes/new") p || matchQuizEdit true p

/-- The authentication-required pattern test of the authorized callback:
protectedPaths.some over /attempts (startsWith), /quizzes/new (startsWith)
and the quiz-edit pattern, whose regex has a start anchor only. -/
def requiresAuth (p : List Char) : Bool :=
  hasPre (chars "/attempts") p || hasPre (chars "/quizzes/new") p ||
    matchQuizEdit false p

/-- The role read by the middleware function: token?.user?.role with
optional chaining. -/
def userRoleOf : Option MwToken → Option Role
  | none => none
  | some t =>
    match t.user with
    | none => none
    | some u => u.role

/-- The middleware function (the first argument of withAuth): on a
role-restricted path, a role that is neither TEACHER nor ADMIN is redirected
to the unauthorized page; every other request proceeds. -/
def middlewareFn (token : Option MwToken) (p : List Char) : Decision :=
  let userRole := userRoleOf token
  if mwRoleRestricted p ∧ userRole ≠ some Role.TEACHER ∧ userRole ≠ some Role.ADMIN then
    Decision.RedirectToUnauthorized
  else
    Decision.Allow

/-- The authorized callback given to withAuth: on a path that requires
authentication a token must exist; all other paths are public. -/
def authorizedCb (token : Option MwToken) (p : List Char) : Bool :=
  if requiresAuth p then token.isSome else true

/-- The composite route guard, following the documented withAuth semantics
(stated in the comments of the middleware source): when the authorized
callback returns false the request is redirected to the login page, and
otherwise the middleware function runs and decides. -/
def authGate (token : Option MwToken) (p : List Char) : Decision :=
  if authorizedCb token p then middlewareFn token p else Decision.RedirectToLogin

/-- An answer option of a question, the AnswerOption interface of
src/src/types/quiz.ts. -/
structure AnswerOption where
  id : Nat
  text : String
  is_correct : Bool
deriving DecidableEq

/-- The question-type enum of src/src/types/quiz.ts. -/
inductive QuestionType
  | SINGLE_MCQ
  | MULTI_MCQ
  | TRUE_FALSE
deriving DecidableEq

/-- A read-only question, the QuestionReadOnly interface of
src/src/types/quiz.ts. -/
structure QuestionReadOnly where
  id : Nat
  question_type : QuestionType
  text : String
  points : Nat
  answer_options : List AnswerOption
deriving DecidableEq

/-- A read-only quiz, the QuizReadOnly interface of src/src/types/quiz.ts
(date strings kept opaque). -/
structure QuizReadOnly where
  id : Nat
  title : String
  teacher : User
  timing_minutes : Nat
  available_from : Option String
  available_to : Option String
  is_available_for_submission : Bool
  has_availability_window : Bool
  questions : List QuestionReadOnly
deriving DecidableEq

/-- One value of the AnswersState map of the quiz-attempt form
(src/unnamed/part_001): possibly absent selected option ids and a possibly
absent boolean answer. -/
structure AnswerSel where
  selectedOptionIds : Option (List Nat)
  selectedAnswerBool : Option Bool
deriving DecidableEq

/-- The ParticipantAnswerSubmit interface of src/src/types/quiz.ts; none
models the JSON null sent for an unanswered part. -/
structure ParticipantAnswerSubmit where
  question_id : Nat
  selected_option_ids : Option (List Nat)
  selected_answer_bool : Option Bool
deriving DecidableEq

/-- The QuizSubmission interface of src/src/types/quiz.ts: the payload sent
by handleSubmit. -/
structure QuizSubmission where
  quiz_id : Nat
  answers : List ParticipantAnswerSubmit
deriving DecidableEq

/-- The per-entry mapping of handleSubmit (src/unnamed/part_001 lines
89-99): an absent or empty option selection is sent as null, and an absent
boolean answer is sent as null. -/
def submitOf (qId : Nat) (ans : AnswerSel) : ParticipantAnswerSubmit :=
  { question_id := qId,
    selected_option_ids :=
      match ans.selectedOptionIds with
      | some ids => if ids.length > 0 then some ids else none
      | none => none,
    selected_answer_bool := ans.selectedAnswerBool }

/-- Lookup of the AnswersState object by question id (the indexing
answers[q.id]; a present entry object is always truthy). -/
def lookupAns : List (Nat × AnswerSel) → Nat → Option AnswerSel
  | [], _ => none
  | (k, a) :: rest, q => if k = q then some a else lookupAns rest q

/-- The submissionAnswers list built by handleSubmit (src/unnamed/part_001
lines 89-110): the mapped Object.entries of the answers state, followed by
a null entry pushed for every quiz question without a recorded answer. -/
def handleSubmitAnswers (answers : List (Nat × AnswerSel))
    (questions : List QuestionReadOnly) : List ParticipantAnswerSubmit :=
  answers.map (fun e => submitOf e.1 e.2) ++
    (questions.filter (fun q => (lookupAns answers q.id).isNone)).map
      (fun q =>
        { question_id := q.id,
          selected_option_ids := none,
          selected_answer_bool := none })

/-- The full submission payload built by handleSubmit (src/unnamed/part_001
lines 112-115). -/
def handleSubmitPayload (quiz : QuizReadOnly) (answers : List (Nat × AnswerSel)) :
    QuizSubmission :=
  { quiz_id := quiz.id, answers := handleSubmitAnswers answers quiz.questions }



/-- A concrete student profile used in concrete instances. -/
def u0 : User :=
  { id := 1, username := "u", email := "e", role := Role.STUDENT, is_marked := false }

/-- A concrete token with an access token but no refresh token. -/
def tokA : CustomJWT :=
  { accessToken := some "a", refreshToken := none, accessTokenExpires := some 99,
    user := none, error := none }

/-- A concrete token with an expired access token, a refresh token and a
profile. -/
def tokR : CustomJWT :=
  { accessToken := some "x", refreshToken := some "rt", accessTokenExpires := some 0,
    user := some u0, error := none }

/-- A concrete token whose expiry is far in the future. -/
def tokFar : CustomJWT :=
  { accessToken := some "old", refreshToken := some "rt",
    accessTokenExpires := some 3000000, user := none, error := none }

/-- A concrete token whose refresh token is the empty string (present but
falsy in JavaScript). -/
def tokEmptyR : CustomJWT :=
  { accessToken := some "old", refreshToken := some "",
    accessTokenExpires := some 0, user := none, error := none }

/-- A concrete refresh response that omits the rotated refresh token. -/
def resp0 : RefreshResponse := { access := "new", refresh := none }

/-- C1 is false as stated: the Refresh Operator invoked on a record whose
refresh token is absent but whose access token is present returns a record
with the error tag set and the access token still present (the
missing-refresh-token branch only spreads the input and sets error). -/
theorem C1_counterexample :
    (refreshAccessToken 0 RefreshResult.failed tokA).1.error ≠ none ∧
    (refreshAccessToken 0 RefreshResult.failed tokA).1.accessToken ≠ none := by
  decide

/-- C1 (amended): the invariant errorTag set implies accessToken absent
holds for every Identity Exchange invocation (the google initial-sign-in
branch of the jwt callback), and for every Refresh Operator invocation
whose input record has a truthy refresh token or has accessToken already
absent — in particular for every failed refresh of a live session, which
fails closed.  The only excluded inputs are those with a falsy (absent or
empty) refresh token that still carry an access token: there the
missing-refresh-token branch carries the input accessToken over. -/
theorem C1_error_implies_no_access :
    (∀ (now : Nat) (sb : SigninResult) (rb : RefreshResult) (a : Account)
        (token : CustomJWT), a.provider = "google" →
        (jwtCallback now sb rb token (some a) true).1.error ≠ none →
        (jwtCallback now sb rb token (some a) true).1.accessToken = none) ∧
    (∀ (now : Nat) (rb : RefreshResult) (token : CustomJWT),
        strTruthy token.refreshToken = true ∨ token.accessToken = none →
        (refreshAccessToken now rb token).1.error ≠ none →
        (refreshAccessToken now rb token).1.accessToken = none) := by
  constructor
  · intro now sb rb a token hprov herr
    cases sb with
    | ok resp =>
        exfalso
        apply herr
        simp [jwtCallback, hprov]
    | failed =>
        simp [jwtCallback, hprov]
  · intro now rb token hin herr
    cases ht : strTruthy token.refreshToken with
    | true =>
        cases rb with
        | ok resp =>
            exfalso
            apply herr
            simp [refreshAccessToken, ht]
        | failed =>
            simp [refreshAccessToken, ht]
    | false =>
        rcases hin with hrt | hacc
        · exact absurd (ht ▸ hrt) Bool.noConfusion
        · simp [refreshAccessToken, ht, hacc]

/-- Closed instance of C1_error_implies_no_access at a concrete input: a
failed refresh of a live session (truthy refresh token, access token
present) comes out with the access token revoked. -/
theorem C1_witness :
    (refreshAccessToken 0 RefreshResult.failed tokR).1.accessToken = none :=
  C1_error_implies_no_access.2 0 RefreshResult.failed tokR
    (Or.inl (by decide)) (by decide)

/-- C2 is false as stated: on an input whose refresh token is absent, the
Refresh Operator does not clear the credential fields; the access token and
the expiry of the input are carried over unchanged. -/
theorem C2_counterexample :
    (refreshAccessToken 0 RefreshResult.failed tokA).1.accessToken = some "a" ∧
    (refreshAccessToken 0 RefreshResult.failed tokA).1.accessTokenExpires = some 99 := by
  decide

/-- C2 (amended): on an input whose refresh token is absent the Refresh
Operator returns immediately with error tag MissingRefreshTokenError and
makes no network call (the call count is 0 and the result does not depend
on the backend), but every other field of the input record — accessToken
and accessTokenExpires included — is carried over unchanged rather than
cleared. -/
theorem C2_missing_refresh (now : Nat) (backend : RefreshResult)
    (token : CustomJWT) (h : token.refreshToken = none) :
    refreshAccessToken now backend token =
      ({ token with error := some "MissingRefreshTokenError" }, 0) := by
  simp [refreshAccessToken, strTruthy, h]

/-- Closed instance of C2_missing_refresh at a concrete input. -/
theorem C2_witness :
    refreshAccessToken 3 RefreshResult.failed tokA =
      ({ tokA with error := some "MissingRefreshTokenError" }, 0) :=
  C2_missing_refresh 3 RefreshResult.failed tokA rfl

/-- C4 is false as stated: on the failure path the Refresh Operator clears
accessToken and refreshToken but sets accessTokenExpires to 0 instead of
clearing it; the last conjunct shows that a present-but-empty refresh token
does not even reach the failure path (JavaScript truthiness). -/
theorem C4_counterexample :
    (refreshAccessToken 5 RefreshResult.failed tokR).1.accessToken = none ∧
    (refreshAccessToken 5 RefreshResult.failed tokR).1.refreshToken = none ∧
    (refreshAccessToken 5 RefreshResult.failed tokR).1.accessTokenExpires = some 0 ∧
    (refreshAccessToken 0 RefreshResult.failed tokEmptyR).1.error =
      some "MissingRefreshTokenError" := by
  decide

/-- C4 (amended): on an input with a truthy (present and nonempty) refresh
token whose exchange fails, the Refresh Operator returns the input record
with error tag RefreshAccessTokenError, accessToken and refreshToken
cleared, accessTokenExpires set to 0 (an always-expired timestamp, not an
absent one), and — as the record-update equation and the explicit conjunct
show — the profile left exactly as it was. -/
theorem C4_refresh_failure (now : Nat) (token : CustomJWT)
    (h : strTruthy token.refreshToken = true) :
    refreshAccessToken now RefreshResult.failed token =
      ({ token with
          error := some "RefreshAccessTokenError",
          accessToken := none,
          refreshToken := none,
          accessTokenExpires := some 0 }, 1) ∧
    (refreshAccessToken now RefreshResult.failed token).1.user = token.user := by
  constructor
  · simp [refreshAccessToken, h]
  · simp [refreshAccessToken, h]

/-- Closed instance of C4_refresh_failure at a concrete input. -/
theorem C4_witness :
    refreshAccessToken 7 RefreshResult.failed tokR =
      ({ tokR with
          error := some "RefreshAccessTokenError",
          accessToken := none,
          refreshToken := none,
          accessTokenExpires := some 0 }, 1) ∧
    (refreshAccessToken 7 RefreshResult.failed tokR).1.user = tokR.user :=
  C4_refresh_failure 7 tokR (by decide)

/-- C8 is false as stated: a successful refresh always sets the expiry to
now plus the fixed lifetime, which is strictly earlier — not later — than
the input expiry when the input expiry lies further than one lifetime in
the future; the last conjunct shows that a present-but-empty refresh token
is not accepted at all. -/
theorem C8_counterexample :
    (refreshAccessToken 0 (RefreshResult.ok resp0) tokFar).1.error = none ∧
    (refreshAccessToken 0 (RefreshResult.ok resp0) tokFar).1.accessTokenExpires =
      some 300000 ∧
    tokFar.accessTokenExpires = some 3000000 ∧
    300000 < 3000000 ∧
    (refreshAccessToken 0 (RefreshResult.ok resp0) tokEmptyR).1.error =
      some "MissingRefreshTokenError" := by
  decide

/-- C8 (amended): on an input with a truthy (present and nonempty) refresh
token whose exchange is accepted, the Refresh Operator returns a record
with no error tag, the fresh access token, the refresh token replaced when
the response provides one and carried over when it omits one, exactly one
network call, and expiry now plus the fixed lifetime; that expiry is
strictly later than the input expiry whenever the input credential had
already expired (input expiry at most now). -/
theorem C8_refresh_success (now : Nat) (resp : RefreshResponse)
    (token : CustomJWT) (h : strTruthy token.refreshToken = true) :
    (refreshAccessToken now (RefreshResult.ok resp) token).1.error = none ∧
    (refreshAccessToken now (RefreshResult.ok resp) token).1.accessToken =
      some resp.access ∧
    (refreshAccessToken now (RefreshResult.ok resp) token).1.refreshToken =
      (match resp.refresh with
       | some r => some r
       | none => token.refreshToken) ∧
    (refreshAccessToken now (RefreshResult.ok resp) token).1.accessTokenExpires =
      some (now + tokenLifetimeMs) ∧
    (refreshAccessToken now (RefreshResult.ok resp) token).2 = 1 ∧
    (∀ e, token.accessTokenExpires = some e → e ≤ now → e < now + tokenLifetimeMs) := by
  refine ⟨?_, ?_, ?_, ?_, ?_, ?_⟩
  · simp [refreshAccessToken, h]
  · simp [refreshAccessToken, h]
  · simp [refreshAccessToken, h]
  · simp [refreshAccessToken, h]
  · simp [refreshAccessToken, h]
  · intro e _ hle
    have hpos : 0 < tokenLifetimeMs := by decide
    omega

/-- Closed instance of C8_refresh_success at a concrete input. -/
theorem C8_witness :
    (refreshAccessToken 0 (RefreshResult.ok resp0) tokR).1.error = none ∧
    (refreshAccessToken 0 (RefreshResult.ok resp0) tokR).1.accessTokenExpires =
      some (0 + tokenLifetimeMs) ∧
    0 < 0 + tokenLifetimeMs :=
  ⟨(C8_refresh_success 0 resp0 tokR (by decide)).1,
   (C8_refresh_success 0 resp0 tokR (by decide)).2.2.2.1,
   (C8_refresh_success 0 resp0 tokR (by decide)).2.2.2.2.2 0 rfl (Nat.le_refl 0)⟩

/-- On a call that is not an initial sign-in (account absent or user
absent), the jwt callback runs its subsequent-call logic. -/
theorem jwtCallback_not_signin (now : Nat) (sb : SigninResult)
    (rb : RefreshResult) (token : CustomJWT) (acct : Option Account)
    (up : Bool) (hns : acct = none ∨ up = false) :
    jwtCallback now sb rb token acct up = jwtSubsequent now rb token := by
  rcases hns with h | h
  · subst h
    cases up <;> rfl
  · subst h
    cases acct <;> rfl

/-- When the stored expiry is absent, zero, or not after now, the
subsequent-call logic of the jwt callback takes its refresh branch. -/
theorem jwtSubsequent_expired (now : Nat) (rb : RefreshResult)
    (token : CustomJWT)
    (hexp : ∀ e, token.accessTokenExpires = some e → e = 0 ∨ e ≤ now) :
    jwtSubsequent now rb token =
      (if strTruthy token.refreshToken then
        refreshAccessToken now rb token
      else
        ({ token with
            error := some "MissingRefreshTokenError",
            accessToken := none,
            accessTokenExpires := none,
            user := none }, 0)) := by
  unfold jwtSubsequent
  cases hc : token.accessTokenExpires with
  | none => rfl
  | some e =>
      rcases hexp e hc with h0 | hle
      · subst h0
        simp
      · have hn : ¬(e ≠ 0 ∧ now < e) := by omega
        simp [hn]

/-- C3 is false as stated: when the jwt callback delegates to the Refresh
Operator and the refresh fails, the returned record keeps the input profile
(user is not cleared), while carrying the RefreshAccessTokenError tag. -/
theorem C3_counterexample :
    (jwtCallback 5 SigninResult.failed RefreshResult.failed tokR none false).1.user =
      some u0 ∧
    (jwtCallback 5 SigninResult.failed RefreshResult.failed tokR none false).1.error =
      some "RefreshAccessTokenError" := by
  decide

/-- C3 (amended): on a non-sign-in materialization whose stored credential
is expired or absent, the jwt callback propagates the Refresh Operator
error tag, but on the refresh-failure path the profile is carried over
unchanged, not cleared; the profile is cleared (together with the
MissingRefreshTokenError tag) only in the callback branch where no truthy
refresh token exists. -/
theorem C3_refresh_failure_user (now : Nat) (sb : SigninResult)
    (token : CustomJWT) (acct : Option Account) (up : Bool)
    (hns : acct = none ∨ up = false)
    (hexp : ∀ e, token.accessTokenExpires = some e → e = 0 ∨ e ≤ now) :
    (strTruthy token.refreshToken = true →
       (jwtCallback now sb RefreshResult.failed token acct up).1.user =
         token.user ∧
       (jwtCallback now sb RefreshResult.failed token acct up).1.error =
         some "RefreshAccessTokenError") ∧
    (strTruthy token.refreshToken = false →
       (jwtCallback now sb RefreshResult.failed token acct up).1.user = none ∧
       (jwtCallback now sb RefreshResult.failed token acct up).1.error =
         some "MissingRefreshTokenError") := by
  rw [jwtCallback_not_signin now sb RefreshResult.failed token acct up hns,
    jwtSubsequent_expired now RefreshResult.failed token hexp]
  constructor
  · intro ht
    simp [ht, refreshAccessToken]
  · intro ht
    simp [ht]

/-- Closed instance of C3_refresh_failure_user at a concrete input. -/
theorem C3_witness :
    (jwtCallback 9 SigninResult.failed RefreshResult.failed tokR none false).1.user =
      tokR.user ∧
    (jwtCallback 9 SigninResult.failed RefreshResult.failed tokR none false).1.error =
      some "RefreshAccessTokenError" :=
  (C3_refresh_failure_user 9 SigninResult.failed tokR none false (Or.inl rfl)
    (by intro e he; simp [tokR] at he; omega)).1 (by decide)

/-- C9 (confirmed): on a non-sign-in materialization whose record has the
access token present and now strictly before the stored expiry, the jwt
callback returns the record unchanged and makes no network call. -/
theorem C9_valid_token_unchanged (now : Nat) (sb : SigninResult)
    (rb : RefreshResult) (token : CustomJWT) (acct : Option Account)
    (up : Bool) (hns : acct = none ∨ up = false)
    (_hat : token.accessToken ≠ none) (e : Nat)
    (he : token.accessTokenExpires = some e) (hlt : now < e) :
    jwtCallback now sb rb token acct up = (token, 0) := by
  rw [jwtCallback_not_signin now sb rb token acct up hns]
  unfold jwtSubsequent
  rw [he]
  have he0 : e ≠ 0 := by omega
  simp [he0, hlt]

/-- A concrete token holding a currently valid credential. -/
def tokValid : CustomJWT :=
  { accessToken := some "v", refreshToken := some "r",
    accessTokenExpires := some 100, user := some u0, error := none }

/-- Closed instance of C9_valid_token_unchanged at a concrete input. -/
theorem C9_witness :
    jwtCallback 5 SigninResult.failed RefreshResult.failed tokValid none true =
      (tokValid, 0) :=
  C9_valid_token_unchanged 5 SigninResult.failed RefreshResult.failed tokValid
    none true (Or.inl rfl) (by decide) 100 rfl (by decide)

/-- Every list is a prefix of itself under hasPre. -/
theorem hasPre_refl (l : List Char) : hasPre l l = true := by
  induction l with
  | nil => rfl
  | cons a t ih => simp [hasPre, ih]

/-- An anchored quiz-edit tail match is in particular a start-anchored
(prefix) match. -/
theorem quizEditTail_anchored_pre (rest : List Char)
    (h : quizEditTail true rest = true) : quizEditTail false rest = true := by
  simp only [quizEditTail, if_true, if_false] at h ⊢
  rw [Bool.and_eq_true] at h ⊢
  obtain ⟨h1, h2⟩ := h
  refine ⟨h1, ?_⟩
  rw [beq_iff_eq] at h2
  rw [h2]
  exact hasPre_refl (chars "/edit")

/-- Every path matching a role-restricted middleware pattern also matches
an authentication-required pattern of the authorized callback. -/
theorem mwRoleRestricted_requiresAuth (p : List Char)
    (h : mwRoleRestricted p = true) : requiresAuth p = true := by
  rw [mwRoleRestricted, Bool.or_eq_true] at h
  rw [requiresAuth, Bool.or_eq_true, Bool.or_eq_true]
  rcases h with h | h
  · exact Or.inl (Or.inr h)
  · refine Or.inr ?_
    rw [matchQuizEdit] at h ⊢
    cases hd : dropPre (chars "/quizzes/") p with
    | none =>
        rw [hd] at h
        exact Bool.noConfusion h
    | some rest =>
        rw [hd] at h
        exact quizEditTail_anchored_pre rest h

/-- C5 is false as stated: on a role-restricted path with no token at all
(the absent-role case), the gate redirects to the login page, not to the
unauthorized page, because the authentication rule of the authorized
callback is evaluated before the role rule of the middleware function. -/
theorem C5_counterexample :
    authGate none (chars "/quizzes/new") = Decision.RedirectToLogin ∧
    authGate none (chars "/quizzes/new") ≠ Decision.RedirectToUnauthorized := by
  decide

/-- C5 (amended): on every path matching a role-restricted pattern, the
authentication rule is evaluated first, so with no token the decision is
RedirectToLogin; with a token present whose materialized role is neither
TEACHER nor ADMIN (a present token with an absent role included) the
decision is RedirectToUnauthorized; and with role TEACHER the decision is
Allow. -/
theorem C5_role_restricted_gate (p : List Char) (t : MwToken)
    (hp : mwRoleRestricted p = true) :
    authGate none p = Decision.RedirectToLogin ∧
    (userRoleOf (some t) ≠ some Role.TEACHER →
     userRoleOf (some t) ≠ some Role.ADMIN →
     authGate (some t) p = Decision.RedirectToUnauthorized) ∧
    (userRoleOf (some t) = some Role.TEACHER →
     authGate (some t) p = Decision.Allow) := by
  have hra := mwRoleRestricted_requiresAuth p hp
  refine ⟨?_, ?_, ?_⟩
  · simp [authGate, authorizedCb, hra]
  · intro h1 h2
    simp [authGate, authorizedCb, hra, middlewareFn, hp, h1, h2]
  · intro h1
    simp [authGate, authorizedCb, hra, middlewareFn, hp, h1]

/-- A concrete middleware token with role STUDENT. -/
def mwStudent : MwToken := { user := some { role := some Role.STUDENT } }

/-- A concrete middleware token with role TEACHER. -/
def mwTeacher : MwToken := { user := some { role := some Role.TEACHER } }

/-- Closed instance of C5_role_restricted_gate at concrete inputs. -/
theorem C5_witness :
    authGate none (chars "/quizzes/new") = Decision.RedirectToLogin ∧
    authGate (some mwStudent) (chars "/quizzes/new") =
      Decision.RedirectToUnauthorized ∧
    authGate (some mwTeacher) (chars "/quizzes/new") = Decision.Allow :=
  ⟨(C5_role_restricted_gate (chars "/quizzes/new") mwStudent (by decide)).1,
   (C5_role_restricted_gate (chars "/quizzes/new") mwStudent (by decide)).2.1
     (by decide) (by decide),
   (C5_role_restricted_gate (chars "/quizzes/new") mwTeacher (by decide)).2.2
     (by decide)⟩

/-- C6 is false as stated: /quizzes/new requires authentication, yet a
token with the valid role STUDENT is not allowed there — the role rule
redirects it to the unauthorized page. -/
theorem C6_counterexample :
    requiresAuth (chars "/quizzes/new") = true ∧
    authGate (some mwStudent) (chars "/quizzes/new") =
      Decision.RedirectToUnauthorized := by
  decide

/-- C6 (amended): on every path matching an authentication-required
pattern, the gate redirects to the login page when no token is present;
when a token is present the gate allows the request provided the path does
not also match a role-restricted pattern (on role-restricted paths a
present token is allowed only with role TEACHER or ADMIN). -/
theorem C6_auth_required_gate (p : List Char) (t : MwToken)
    (hp : requiresAuth p = true) :
    authGate none p = Decision.RedirectToLogin ∧
    (mwRoleRestricted p = false → authGate (some t) p = Decision.Allow) := by
  refine ⟨?_, ?_⟩
  · simp [authGate, authorizedCb, hp]
  · intro hm
    simp [authGate, authorizedCb, hp, middlewareFn, hm]

/-- Closed instance of C6_auth_required_gate at concrete inputs. -/
theorem C6_witness :
    authGate none (chars "/attempts/9") = Decision.RedirectToLogin ∧
    authGate (some mwStudent) (chars "/attempts/9") = Decision.Allow :=
  ⟨(C6_auth_required_gate (chars "/attempts/9") mwStudent (by decide)).1,
   (C6_auth_required_gate (chars "/attempts/9") mwStudent (by decide)).2
     (by decide)⟩

/-- Every list is a prefix of any of its extensions under hasPre. -/
theorem hasPre_append (l r : List Char) : hasPre l (l ++ r) = true := by
  induction l with
  | nil => rfl
  | cons a t ih => simp [hasPre, ih]

/-- hasPre decides exactly the prefix relation. -/
theorem hasPre_iff (pat p : List Char) :
    hasPre pat p = true ↔ ∃ r, p = pat ++ r := by
  induction pat generalizing p with
  | nil =>
      simp [hasPre]
  | cons a t ih =>
      cases p with
      | nil =>
          constructor
          · intro h
            exact Bool.noConfusion h
          · rintro ⟨r, hr⟩
            exact absurd hr (by simp)
      | cons c cs =>
          constructor
          · intro h
            simp only [hasPre] at h
            rw [Bool.and_eq_true] at h
            obtain ⟨h1, h2⟩ := h
            have hac : a = c := by simpa using h1
            obtain ⟨r, hr⟩ := (ih cs).mp h2
            exact ⟨r, by rw [hac, hr]; rfl⟩
          · rintro ⟨r, hr⟩
            injection hr with h1 h2
            subst h1
            simp only [hasPre]
            rw [Bool.and_eq_true]
            exact ⟨by simp, (ih cs).mpr ⟨r, h2⟩⟩

/-- Stripping a pattern from the front of the pattern followed by anything
yields that remainder. -/
theorem dropPre_append (l x : List Char) : dropPre l (l ++ x) = some x := by
  induction l with
  | nil => rfl
  | cons a t ih => simp [dropPre, ih]

/-- takeWhile over an all-satisfying block keeps the whole block. -/
theorem takeWhile_all_append (pr : Char → Bool) (s t : List Char)
    (h : s.all pr = true) :
    (s ++ t).takeWhile pr = s ++ t.takeWhile pr := by
  induction s with
  | nil => rfl
  | cons a as ih =>
      rw [List.all_cons, Bool.and_eq_true] at h
      simp [List.takeWhile, h.1, ih h.2]

/-- dropWhile over an all-satisfying block skips the whole block. -/
theorem dropWhile_all_append (pr : Char → Bool) (s t : List Char)
    (h : s.all pr = true) :
    (s ++ t).dropWhile pr = t.dropWhile pr := by
  induction s with
  | nil => rfl
  | cons a as ih =>
      rw [List.all_cons, Bool.and_eq_true] at h
      simp [List.dropWhile, h.1, ih h.2]

/-- If dropWhile over a block followed by the literal /edit returns exactly
that literal, the block consists of satisfying characters only. -/
theorem all_of_dropWhile_edit (pr : Char → Bool) (s : List Char)
    (h : (s ++ chars "/edit").dropWhile pr = chars "/edit") :
    s.all pr = true := by
  induction s with
  | nil => rfl
  | cons a as ih =>
      rw [List.all_cons, Bool.and_eq_true]
      cases hpa : pr a with
      | true =>
          refine ⟨rfl, ih ?_⟩
          rw [List.cons_append, List.dropWhile_cons, hpa] at h
          simpa using h
      | false =>
          exfalso
          rw [List.cons_append, List.dropWhile_cons, hpa] at h
          have hlen := congrArg List.length h
          simp [List.length_append] at hlen
          omega

/-- The literal /edit starts with a character that is not a digit, so a
digit run taken from it is empty and a digit run dropped from it removes
nothing, whatever follows. -/
theorem takeWhile_edit (r : List Char) :
    (chars "/edit" ++ r).takeWhile Char.isDigit = [] := rfl

/-- dropWhile of a digit run over the literal /edit followed by anything
removes nothing. -/
theorem dropWhile_edit (r : List Char) :
    (chars "/edit" ++ r).dropWhile Char.isDigit = chars "/edit" ++ r := rfl

/-- C7 is false as stated: the concrete single-segment value x placed in
the variable segment position of the quiz-edit template matches neither
the anchored role-restricted pattern nor the start-anchored
authentication-required pattern, and the path matches no guard pattern at
all. -/
theorem C7_counterexample :
    matchQuizEdit true (chars "/quizzes/x/edit") = false ∧
    matchQuizEdit false (chars "/quizzes/x/edit") = false ∧
    mwRoleRestricted (chars "/quizzes/x/edit") = false ∧
    requiresAuth (chars "/quizzes/x/edit") = false := by
  decide

/-- C7 (amended): static patterns are exact prefix matches (hasPre decides
the prefix relation), and the variable segment of the quiz-edit template
matches exactly the nonempty strings of decimal digits — never an empty
segment, never several segments (a slash is not a digit), and never a
non-numeric value.  The authorized-callback form of the pattern is
start-anchored only, so a matching path may continue past /edit. -/
theorem C7_pattern_semantics :
    (∀ pat p : List Char, hasPre pat p = true ↔ ∃ r, p = pat ++ r) ∧
    (∀ s : List Char,
       matchQuizEdit true (chars "/quizzes/" ++ (s ++ chars "/edit")) = true ↔
         s ≠ [] ∧ s.all Char.isDigit = true) ∧
    (∀ s r : List Char, s ≠ [] → s.all Char.isDigit = true →
       matchQuizEdit false
         (chars "/quizzes/" ++ (s ++ (chars "/edit" ++ r))) = true) := by
  refine ⟨hasPre_iff, ?_, ?_⟩
  · intro s
    simp only [matchQuizEdit]
    rw [dropPre_append]
    simp only [quizEditTail]
    constructor
    · intro h
      rw [Bool.and_eq_true] at h
      obtain ⟨h1, h2⟩ := h
      rw [if_pos trivial, beq_iff_eq] at h2
      have hall : s.all Char.isDigit = true := all_of_dropWhile_edit _ s h2
      refine ⟨?_, hall⟩
      intro hnil
      subst hnil
      rw [List.nil_append] at h1
      have hte : (chars "/edit").takeWhile Char.isDigit = ([] : List Char) := rfl
      rw [hte] at h1
      simp at h1
    · rintro ⟨h1, h2⟩
      rw [Bool.and_eq_true]
      constructor
      · rw [takeWhile_all_append Char.isDigit s (chars "/edit") h2]
        have : (chars "/edit").takeWhile Char.isDigit = [] := rfl
        rw [this, List.append_nil]
        simpa using h1
      · rw [if_pos trivial, beq_iff_eq,
          dropWhile_all_append Char.isDigit s (chars "/edit") h2]
        rfl
  · intro s r h1 h2
    simp only [matchQuizEdit]
    rw [dropPre_append]
    simp only [quizEditTail]
    rw [Bool.and_eq_true]
    constructor
    · rw [takeWhile_all_append Char.isDigit s (chars "/edit" ++ r) h2,
        takeWhile_edit r, List.append_nil]
      simpa using h1
    · rw [if_neg (by simp), dropWhile_all_append Char.isDigit s _ h2,
        dropWhile_edit r]
      exact hasPre_append (chars "/edit") r

/-- Closed instance of C7_pattern_semantics at concrete inputs. -/
theorem C7_witness :
    hasPre (chars "/quizzes/new") (chars "/quizzes/new/x") = true ∧
    matchQuizEdit true (chars "/quizzes/" ++ (chars "42" ++ chars "/edit")) = true ∧
    matchQuizEdit false
      (chars "/quizzes/" ++ (chars "42" ++ (chars "/edit" ++ chars "/x"))) = true :=
  ⟨(C7_pattern_semantics.1 (chars "/quizzes/new") (chars "/quizzes/new/x")).mpr
     ⟨chars "/x", by decide⟩,
   (C7_pattern_semantics.2.1 (chars "42")).mpr ⟨by decide, by decide⟩,
   C7_pattern_semantics.2.2 (chars "42") (chars "/x") (by decide) (by decide)⟩

/-- A question id that is not among the keys of the answers state has no
lookup result. -/
theorem lookupAns_not_mem (answers : List (Nat × AnswerSel)) (i : Nat)
    (h : i ∉ answers.map Prod.fst) : lookupAns answers i = none := by
  induction answers with
  | nil => rfl
  | cons hd tl ih =>
      simp only [List.map_cons, List.mem_cons] at h
      push_neg at h
      simp only [lookupAns]
      rw [if_neg (fun heq => h.1 heq.symm)]
      exact ih h.2

/-- A question id that is not among the keys of the answers state
contributes no entry to the mapped part of the payload. -/
theorem mapPart_not_mem (answers : List (Nat × AnswerSel)) (i : Nat)
    (h : i ∉ answers.map Prod.fst) :
    (answers.map (fun e => submitOf e.1 e.2)).filter
      (fun e => e.question_id == i) = [] := by
  induction answers with
  | nil => rfl
  | cons hd tl ih =>
      simp only [List.map_cons, List.mem_cons] at h
      push_neg at h
      rw [List.map_cons, List.filter_cons]
      have : (((fun e => submitOf e.1 e.2) hd).question_id == i) = false := by
        simp [submitOf]
        exact fun heq => h.1 heq.symm
      rw [this]
      simp only [Bool.false_eq_true, if_false]
      exact ih h.2

/-- On nodup keys, the mapped part of the payload filtered down to one
question id is the singleton given by the lookup, or empty. -/
theorem mapPart_lookup (answers : List (Nat × AnswerSel)) (i : Nat)
    (h : (answers.map Prod.fst).Nodup) :
    (answers.map (fun e => submitOf e.1 e.2)).filter
        (fun e => e.question_id == i) =
      (match lookupAns answers i with
       | some a => [submitOf i a]
       | none => []) := by
  induction answers with
  | nil => rfl
  | cons hd tl ih =>
      rw [List.map_cons, List.nodup_cons] at h
      obtain ⟨hmem, htl⟩ := h
      rw [List.map_cons, List.filter_cons]
      simp only [lookupAns]
      by_cases hki : hd.1 = i
      · subst hki
        rw [if_pos rfl]
        have : (((fun e => submitOf e.1 e.2) hd).question_id == hd.1) = true := by
          simp [submitOf]
        rw [this]
        simp only [if_true]
        rw [mapPart_not_mem tl hd.1 hmem]
      · rw [if_neg hki]
        have : (((fun e => submitOf e.1 e.2) hd).question_id == i) = false := by
          simp [submitOf]
          exact hki
        rw [this]
        simp only [Bool.false_eq_true, if_false]
        exact ih htl

/-- A question id absent from a question list contributes no entry to the
pushed null part of the payload. -/
theorem pushPart_not_mem (answers : List (Nat × AnswerSel))
    (qs : List QuestionReadOnly) (i : Nat)
    (h : i ∉ qs.map QuestionReadOnly.id) :
    ((qs.filter (fun q => (lookupAns answers q.id).isNone)).map
        (fun q =>
          ({ question_id := q.id, selected_option_ids := none,
             selected_answer_bool := none } : ParticipantAnswerSubmit))).filter
      (fun e => e.question_id == i) = [] := by
  induction qs with
  | nil => rfl
  | cons hd tl ih =>
      simp only [List.map_cons, List.mem_cons] at h
      push_neg at h
      have hne : ¬(hd.id = i) := fun heq => h.1 heq.symm
      by_cases hk : (lookupAns answers hd.id).isNone = true
      · simp [List.filter_cons, hk, hne, ih h.2]
      · simp [List.filter_cons, hk, ih h.2]

/-- On nodup question ids, the pushed null part of the payload filtered
down to the id of a listed question is the null entry exactly when that
question has no recorded answer. -/
theorem pushPart_mem (answers : List (Nat × AnswerSel))
    (qs : List QuestionReadOnly) (q : QuestionReadOnly) (hq : q ∈ qs)
    (h : (qs.map QuestionReadOnly.id).Nodup) :
    ((qs.filter (fun q => (lookupAns answers q.id).isNone)).map
        (fun q =>
          ({ question_id := q.id, selected_option_ids := none,
             selected_answer_bool := none } : ParticipantAnswerSubmit))).filter
      (fun e => e.question_id == q.id) =
      (if (lookupAns answers q.id).isNone then
        [{ question_id := q.id, selected_option_ids := none,
           selected_answer_bool := none }]
      else []) := by
  induction qs with
  | nil => cases hq
  | cons hd tl ih =>
      rw [List.map_cons, List.nodup_cons] at h
      obtain ⟨hmem, htl⟩ := h
      rcases List.mem_cons.mp hq with heq | hmemq
      · subst heq
        by_cases hk : (lookupAns answers q.id).isNone = true
        · simp [List.filter_cons, hk, pushPart_not_mem answers tl q.id hmem]
        · simp [List.filter_cons, hk, pushPart_not_mem answers tl q.id hmem]
      · have hne : hd.id ≠ q.id := by
          intro heq
          exact hmem (heq ▸ List.mem_map_of_mem QuestionReadOnly.id hmemq)
        by_cases hk : (lookupAns answers hd.id).isNone = true
        · simp [List.filter_cons, hk, hne, ih hmemq htl]
        · simp [List.filter_cons, hk, ih hmemq htl]

/-- C10 (confirmed, under the well-formedness of the data: quiz question
ids are pairwise distinct, and the answers state is a JavaScript object so
its keys are pairwise distinct): the submission payload built by
handleSubmit contains exactly one answer entry for each question of the
quiz — the entry carrying the recorded selections when the question was
answered, with an absent or empty option selection sent as null and an
absent boolean sent as null, and the all-null entry when no answer was
recorded. -/
theorem C10_payload_entries (quiz : QuizReadOnly)
    (answers : List (Nat × AnswerSel))
    (hq : (quiz.questions.map QuestionReadOnly.id).Nodup)
    (ha : (answers.map Prod.fst).Nodup) :
    ∀ q ∈ quiz.questions,
      (handleSubmitPayload quiz answers).answers.filter
          (fun e => e.question_id == q.id) =
        [match lookupAns answers q.id with
         | some a =>
             { question_id := q.id,
               selected_option_ids :=
                 match a.selectedOptionIds with
                 | some ids => if ids.length > 0 then some ids else none
                 | none => none,
               selected_answer_bool := a.selectedAnswerBool }
         | none =>
             { question_id := q.id, selected_option_ids := none,
               selected_answer_bool := none }] := by
  intro q hmem
  show (handleSubmitAnswers answers quiz.questions).filter
      (fun e => e.question_id == q.id) = _
  rw [handleSubmitAnswers, List.filter_append,
    mapPart_lookup answers q.id ha,
    pushPart_mem answers quiz.questions q hmem hq]
  cases hl : lookupAns answers q.id with
  | some a => simp [hl, submitOf]
  | none => simp [hl]

/-- A concrete teacher profile. -/
def uT : User :=
  { id := 9, username := "t", email := "te", role := Role.TEACHER,
    is_marked := false }

/-- A concrete true-false question. -/
def qT : QuestionReadOnly :=
  { id := 1, question_type := QuestionType.TRUE_FALSE, text := "t",
    points := 2, answer_options := [] }

/-- A concrete single-choice question. -/
def qM : QuestionReadOnly :=
  { id := 2, question_type := QuestionType.SINGLE_MCQ, text := "m",
    points := 3,
    answer_options := [{ id := 10, text := "o", is_correct := true }] }

/-- A concrete quiz with two questions. -/
def quizW : QuizReadOnly :=
  { id := 7, title := "q", teacher := uT, timing_minutes := 10,
    available_from := none, available_to := none,
    is_available_for_submission := true, has_availability_window := false,
    questions := [qT, qM] }

/-- A concrete answers state answering only the second question. -/
def ansW : List (Nat × AnswerSel) :=
  [(2, { selectedOptionIds := some [10], selectedAnswerBool := none })]

/-- Closed instance of C10_payload_entries at a concrete input. -/
theorem C10_witness :
    (handleSubmitPayload quizW ansW).answers.filter
        (fun e => e.question_id == qM.id) =
      [{ question_id := 2, selected_option_ids := some [10],
         selected_answer_bool := none }] := by
  rw [C10_payload_entries quizW ansW (by decide) (by decide) qM (by decide)]
  decide

